import Mathlib

/-
Shallow embedding of the Flask e-commerce dashboard backend (src/app.py).

The program is a read-only projector over a SQLite schema:
orders, products, stock_level, order_details, payments, payment_methods.
Each API route runs one fixed SELECT statement through `query_db`, reshapes
the row list into parallel JSON arrays, and returns it; one route
additionally calls the Open-Meteo archive HTTP API.  Errors are funnelled
through `flask.abort(500, ...)` and the registered 404/500 error handlers.

Modelling decisions, each traceable to the source:
- Database state is the six table contents as lists of typed rows.
- SQLite TEXT comparison (BINARY collation, memcmp of UTF-8 bytes) is
  lexicographic order on code points for valid UTF-8, embedded as
  `charListLe` on `String.data`.
- `ORDER BY` is embedded as `List.insertionSort` with the statement's key;
  tie order among equal keys is implementation-defined in SQLite and the
  spec documents it as such, so any sort consistent with the key is a
  faithful embedding.
- `GROUP BY` is embedded as the deduplicated key list with the aggregate
  computed per key; `COUNT` of a non-null column counts the group's rows,
  `SUM` sums the column over the group, `LIMIT n` is `List.take n`.
- The storage layer is `Except String DB`: `.error e` is the state in which
  sqlite3 raises an error with message `e` (e.g. the database file cannot
  be opened or a table is missing); `.ok db` is a working database.
- `flask.abort(code, description)` raises a werkzeug HTTPException, which
  `except Exception` blocks in the handlers DO catch (HTTPException is an
  Exception subclass); an escaping HTTPException with code 500 reaches the
  registered 500 error handler, whose response body ignores the
  description and is always the uniform internal-error JSON object.
- The external HTTP call is an oracle `ExtQuery → ExtResult` supplied to
  the request; `requests` drops `None`-valued params from the query string,
  so the call is issued even when start/end dates are NULL.
  `response.raise_for_status()` raises exactly for status codes in
  [400, 600); `response.json()` raises when the body is not valid JSON.
- Python's `with sqlite3.connect(...) as conn` block commits on success
  and rolls back on exception but does NOT close the connection (per the
  documented semantics of sqlite3.Connection.__enter__/__exit__); the
  connection lifecycle of one `query_db` call is recorded as an explicit
  event trace `query_db_conn_events`.
-/

/-- JSON values as produced by `flask.jsonify`: null, strings, integers,
arrays and objects (ordered field lists).  Floats do not occur in any
response body this program builds. -/
inductive Json where
  | null : Json
  | str (s : String) : Json
  | num (n : Int) : Json
  | arr (elems : List Json) : Json
  | obj (fields : List (String × Json)) : Json

/-- Row of the orders table: orders(order_id, order_date, ...).  The date is
a TEXT column holding ISO `YYYY-MM-DD` dates. -/
structure OrderRow where
  order_id : Nat
  order_date : String
deriving DecidableEq

/-- Row of the products table: products(product_id, product_name, ...). -/
structure ProductRow where
  product_id : Nat
  product_name : String
deriving DecidableEq

/-- Row of the stock_level table: stock_level(product_id, quantity). -/
structure StockLevelRow where
  product_id : Nat
  quantity : Int
deriving DecidableEq

/-- Row of the order_details table:
order_details(order_id, product_id, quantity_ordered). -/
structure OrderDetailRow where
  order_id : Nat
  product_id : Nat
  quantity_ordered : Int
deriving DecidableEq

/-- Row of the payments table: payments(payment_id, method_id). -/
structure PaymentRow where
  payment_id : Nat
  method_id : Nat
deriving DecidableEq

/-- Row of the payment_methods table:
payment_methods(method_id, method_name). -/
structure PaymentMethodRow where
  method_id : Nat
  method_name : String
deriving DecidableEq

/-- The relational database state: contents of the six tables read by the
five API routes. -/
structure DB where
  orders : List OrderRow
  products : List ProductRow
  stock_level : List StockLevelRow
  order_details : List OrderDetailRow
  payments : List PaymentRow
  payment_methods : List PaymentMethodRow
deriving DecidableEq

/-- Lexicographic less-or-equal on character lists; SQLite's BINARY
collation compares TEXT values by the bytes of their UTF-8 encodings, which
for valid UTF-8 orders exactly like code points, i.e. like `Char` values. -/
def charListLe : List Char → List Char → Bool
  | [], _ => true
  | _ :: _, [] => false
  | a :: as, b :: bs => if a < b then true else if b < a then false else charListLe as bs

/-- SQLite TEXT less-or-equal on strings (BINARY collation). -/
def strLe (a b : String) : Bool := charListLe a.data b.data

/-- `strLe` as a propositional relation, the sort key of
`ORDER BY order_date` (ascending). -/
def strOrd (a b : String) : Prop := strLe a b = true

instance : DecidableRel strOrd :=
  fun a b => inferInstanceAs (Decidable (strLe a b = true))

/-- Sort relation of `ORDER BY s.quantity ASC` on (product_name, quantity)
rows. -/
def quantityAsc (a b : String × Int) : Prop := a.2 ≤ b.2

instance : DecidableRel quantityAsc :=
  fun a b => inferInstanceAs (Decidable (a.2 ≤ b.2))

/-- Sort relation of `ORDER BY total_quantity DESC` on
(product_id, product_name, total_quantity) rows. -/
def totalDesc (a b : Nat × String × Int) : Prop := b.2.2 ≤ a.2.2

instance : DecidableRel totalDesc :=
  fun a b => inferInstanceAs (Decidable (b.2.2 ≤ a.2.2))

/-- Sort relation of `ORDER BY transaction_count DESC` on
(method_name, transaction_count) rows. -/
def countDesc (a b : String × Nat) : Prop := b.2 ≤ a.2

instance : DecidableRel countDesc :=
  fun a b => inferInstanceAs (Decidable (b.2 ≤ a.2))

/-- SQL `MIN` over a TEXT column: NULL (none) on the empty table, else the
least value under BINARY collation. -/
def sql_min (l : List String) : Option String :=
  l.foldl (fun acc d =>
    match acc with
    | none => some d
    | some m => if strLe d m then some d else some m) none

/-- SQL `MAX` over a TEXT column: NULL (none) on the empty table, else the
greatest value under BINARY collation. -/
def sql_max (l : List String) : Option String :=
  l.foldl (fun acc d =>
    match acc with
    | none => some d
    | some m => if strLe m d then some d else some m) none

/-- The order_date column of the orders table. -/
def order_dates_col (db : DB) : List String := db.orders.map (fun o => o.order_date)

/-- Result of `SELECT MIN(order_date), MAX(order_date) FROM orders`:
always exactly one row; both aggregates are NULL iff orders is empty. -/
def min_max_order_date (db : DB) : Option String × Option String :=
  (sql_min (order_dates_col db), sql_max (order_dates_col db))

/-- The one-row result set of the MIN/MAX query, as fetched by
`cursor.fetchall()`. -/
def min_max_rows (db : DB) : List (Option String × Option String) :=
  [min_max_order_date db]

/-- Result rows of `SELECT order_date, COUNT(order_id) FROM orders GROUP BY
order_date ORDER BY order_date`: the distinct dates in ascending order,
each with the number of orders on that date (order_id is the non-null
primary key, so COUNT(order_id) counts the group's rows). -/
def orders_over_time_rows (db : DB) : List (String × Nat) :=
  (List.insertionSort strOrd (order_dates_col db).dedup).map
    (fun d => (d, (order_dates_col db).count d))

/-- Join of `FROM stock_level s JOIN products p ON s.product_id =
p.product_id`, projected to (p.product_name, s.quantity). -/
def low_stock_join (db : DB) : List (String × Int) :=
  db.stock_level.flatMap (fun s =>
    (db.products.filter (fun p => p.product_id == s.product_id)).map
      (fun p => (p.product_name, s.quantity)))

/-- Result rows of the low_stock_levels query: the join ordered by quantity
ascending (no LIMIT). -/
def low_stock_levels_rows (db : DB) : List (String × Int) :=
  List.insertionSort quantityAsc (low_stock_join db)

/-- Join of `FROM order_details od JOIN products p ON od.product_id =
p.product_id`, projected to (p.product_id, p.product_name,
od.quantity_ordered). -/
def most_popular_join (db : DB) : List (Nat × String × Int) :=
  db.order_details.flatMap (fun od =>
    (db.products.filter (fun p => p.product_id == od.product_id)).map
      (fun p => (p.product_id, p.product_name, od.quantity_ordered)))

/-- The `GROUP BY p.product_id, p.product_name` groups with
`SUM(od.quantity_ordered)` per group. -/
def most_popular_groups (db : DB) : List (Nat × String × Int) :=
  ((most_popular_join db).map (fun r => (r.1, r.2.1))).dedup.map
    (fun k => (k.1, k.2,
      (((most_popular_join db).filter
          (fun r => r.1 == k.1 && r.2.1 == k.2)).map (fun r => r.2.2)).sum))

/-- Result rows of the most_popular_products query: groups ordered by total
descending, `LIMIT 10`. -/
def most_popular_products_rows (db : DB) : List (Nat × String × Int) :=
  (List.insertionSort totalDesc (most_popular_groups db)).take 10

/-- Join of `FROM payments p JOIN payment_methods pm ON p.method_id =
pm.method_id`, projected to pm.method_name: one name per matching
(payment, method) pair. -/
def payment_join_names (db : DB) : List String :=
  db.payments.flatMap (fun p =>
    (db.payment_methods.filter (fun m => m.method_id == p.method_id)).map
      (fun m => m.method_name))

/-- The `GROUP BY pm.method_name` groups with `COUNT(p.payment_id)` per
group (payment_id is non-null, so COUNT counts the group's join rows). -/
def payment_groups (db : DB) : List (String × Nat) :=
  (payment_join_names db).dedup.map
    (fun n => (n, (payment_join_names db).count n))

/-- Result rows of the payment_method_popularity query: groups ordered by
transaction count descending. -/
def payment_method_popularity_rows (db : DB) : List (String × Nat) :=
  List.insertionSort countDesc (payment_groups db)

/-- The list `dates = [row[0] for row in result]` built by
orders_over_time. -/
def orders_dates (db : DB) : List String := (orders_over_time_rows db).map (fun r => r.1)

/-- The list `counts = [row[1] for row in result]` built by
orders_over_time. -/
def orders_counts (db : DB) : List Nat := (orders_over_time_rows db).map (fun r => r.2)

/-- The list `products = [row[0] for row in result]` built by
low_stock_levels. -/
def stock_products (db : DB) : List String := (low_stock_levels_rows db).map (fun r => r.1)

/-- The list `quantities = [row[1] for row in result]` built by
low_stock_levels. -/
def stock_quantities (db : DB) : List Int := (low_stock_levels_rows db).map (fun r => r.2)

/-- The list `product_ids = [row[0] for row in result]` built by
most_popular_products. -/
def popular_product_ids (db : DB) : List Nat := (most_popular_products_rows db).map (fun r => r.1)

/-- The list `product_names = [row[1] for row in result]` built by
most_popular_products. -/
def popular_product_names (db : DB) : List String :=
  (most_popular_products_rows db).map (fun r => r.2.1)

/-- The list `totals = [row[2] for row in result]` built by
most_popular_products. -/
def popular_totals (db : DB) : List Int := (most_popular_products_rows db).map (fun r => r.2.2)

/-- The list `methods = [row[0] for row in result]` built by
payment_method_popularity. -/
def payment_methods_list (db : DB) : List String :=
  (payment_method_popularity_rows db).map (fun r => r.1)

/-- The list `counts = [row[1] for row in result]` built by
payment_method_popularity. -/
def payment_counts (db : DB) : List Nat := (payment_method_popularity_rows db).map (fun r => r.2)

/-- A werkzeug HTTPException as raised by `flask.abort(code,
description=...)`. -/
structure HttpExc where
  code : Nat
  description : String
deriving DecidableEq

/-- The message `query_db` logs on a sqlite3 error: the format string
"Database error: %s" applied to the error text. -/
def db_error_log (e : String) : String := "Database error: " ++ e

/-- Rendering of an HTTPException by `str(e)` (as interpolated via `%s`
into the handlers' log messages); the exact text is irrelevant to every
property below, only that the exception reaches the log. -/
def http_exc_str (e : HttpExc) : String := toString e.code ++ ": " ++ e.description

/-- Execution of one SELECT statement against an open connection: reading
never modifies any table, so the post-statement database state equals the
pre-statement state. -/
def run_select {α : Type} (rows : DB → List α) (db : DB) : DB × List α :=
  (db, rows db)

/-- The query executor (query_db): on a working store it opens a
connection, executes the statement, fetches all rows and returns them with
the resulting storage state; on a sqlite3 error it logs
"Database error: %s" and calls `abort(500, description="Database error")`,
raising an HTTPException.  Components: post-state, log entries written,
outcome. -/
def query_db {α : Type} (q : DB → List α) :
    Except String DB → Except String DB × List String × Except HttpExc (List α)
  | .ok db =>
    match run_select q db with
    | (db2, results) => (.ok db2, [], .ok results)
  | .error e => (.error e, [db_error_log e], .error ⟨500, "Database error"⟩)

/-- Outcome of running one handler body: resulting storage state, log
entries appended, whether the external HTTP API was contacted, and either
a JSON value (returned via jsonify) or an escaping HTTPException. -/
structure HandlerOut where
  stAfter : Except String DB
  log : List String
  extCalled : Bool
  result : Except HttpExc Json

/-- Handler of /api/orders_over_time: runs the GROUP BY query, builds the
dates/counts arrays; `except Exception` catches the HTTPException escaping
query_db, logs it, and aborts 500 with this route's description. -/
def orders_over_time (st : Except String DB) : HandlerOut :=
  match query_db orders_over_time_rows st with
  | (st2, lg, .ok rows) =>
    ⟨st2, lg, false,
      .ok (Json.obj
        [("dates", Json.arr ((rows.map (fun r => r.1)).map Json.str)),
         ("counts", Json.arr ((rows.map (fun r => r.2)).map (fun n => Json.num (Int.ofNat n))))])⟩
  | (st2, lg, .error e) =>
    ⟨st2, lg ++ ["Error fetching orders over time: " ++ http_exc_str e], false,
      .error ⟨500, "Error fetching orders over time"⟩⟩

/-- Handler of /api/low_stock_levels. -/
def low_stock_levels (st : Except String DB) : HandlerOut :=
  match query_db low_stock_levels_rows st with
  | (st2, lg, .ok rows) =>
    ⟨st2, lg, false,
      .ok (Json.obj
        [("products", Json.arr ((rows.map (fun r => r.1)).map Json.str)),
         ("quantities", Json.arr ((rows.map (fun r => r.2)).map Json.num))])⟩
  | (st2, lg, .error e) =>
    ⟨st2, lg ++ ["Error fetching low stock levels: " ++ http_exc_str e], false,
      .error ⟨500, "Error fetching low stock levels"⟩⟩

/-- Handler of /api/most_popular_products. -/
def most_popular_products (st : Except String DB) : HandlerOut :=
  match query_db most_popular_products_rows st with
  | (st2, lg, .ok rows) =>
    ⟨st2, lg, false,
      .ok (Json.obj
        [("product_ids", Json.arr ((rows.map (fun r => r.1)).map (fun n => Json.num (Int.ofNat n)))),
         ("product_names", Json.arr ((rows.map (fun r => r.2.1)).map Json.str)),
         ("totals", Json.arr ((rows.map (fun r => r.2.2)).map Json.num))])⟩
  | (st2, lg, .error e) =>
    ⟨st2, lg ++ ["Error fetching most popular products: " ++ http_exc_str e], false,
      .error ⟨500, "Error fetching most popular products"⟩⟩

/-- Handler of /api/payment_method_popularity. -/
def payment_method_popularity (st : Except String DB) : HandlerOut :=
  match query_db payment_method_popularity_rows st with
  | (st2, lg, .ok rows) =>
    ⟨st2, lg, false,
      .ok (Json.obj
        [("methods", Json.arr ((rows.map (fun r => r.1)).map Json.str)),
         ("counts", Json.arr ((rows.map (fun r => r.2)).map (fun n => Json.num (Int.ofNat n))))])⟩
  | (st2, lg, .error e) =>
    ⟨st2, lg ++ ["Error fetching payment method popularity: " ++ http_exc_str e], false,
      .error ⟨500, "Error fetching payment method popularity"⟩⟩

/-- The query-string parameters of the Open-Meteo archive request; the
numeric literals of the source are kept as their decimal spellings since
they are fixed and only relayed. -/
structure ExtQuery where
  latitude : String
  longitude : String
  start_date : Option String
  end_date : Option String
  daily : String
  timezone : String
deriving DecidableEq

/-- The params dict built in temperature_over_time; `requests` drops the
None-valued entries from the final query string, so the request is issued
even with both dates missing. -/
def archive_params (sd ed : Option String) : ExtQuery :=
  ⟨"50.6053", "-3.5952", sd, ed, "temperature_2m_max", "GMT"⟩

/-- Outcome of `requests.get` on the archive endpoint: a transport-level
exception, or an HTTP response with a status code and a body that either
parses as JSON (some) or not (none). -/
inductive ExtResult where
  | netFail (msg : String)
  | resp (status : Nat) (body : Option Json)

/-- `response.raise_for_status()` raises exactly for client and server
error codes, 400 ≤ status < 600. -/
def raise_for_status_fails (status : Nat) : Bool :=
  decide (400 ≤ status) && decide (status < 600)

/-- Log line of the temperature route's `except Exception` block:
"Error in /api/temperature_over_time: %s". -/
def temp_log (msg : String) : String := "Error in /api/temperature_over_time: " ++ msg

/-- The HTTPException raised by the temperature route's except block:
`abort(500, description="Error fetching temperature data.")`. -/
def temperature_abort : HttpExc := ⟨500, "Error fetching temperature data."⟩

/-- The part of temperature_over_time from `requests.get` onwards, given
the external call's outcome: raise_for_status, response.json(), jsonify;
every failure is caught by the `except Exception` block, logged, and turned
into `abort(500, "Error fetching temperature data.")`. -/
def temperature_external_step (st2 : Except String DB) (lg : List String)
    (r : ExtResult) : HandlerOut :=
  match r with
  | .netFail m => ⟨st2, lg ++ [temp_log m], true, .error temperature_abort⟩
  | .resp status body =>
    if raise_for_status_fails status then
      ⟨st2, lg ++ [temp_log (toString status ++ " error for url")], true,
        .error temperature_abort⟩
    else
      match body with
      | none =>
        ⟨st2, lg ++ [temp_log "response body is not valid JSON"], true,
          .error temperature_abort⟩
      | some j => ⟨st2, lg, true, .ok j⟩

/-- Handler of /api/temperature_over_time: queries MIN/MAX order_date,
unpacks the single result row, issues the external request with those
dates, and relays the JSON body; any exception in the try block (the
HTTPException from query_db included) is logged and converted to
`abort(500, "Error fetching temperature data.")`. -/
def temperature_over_time (st : Except String DB) (ext : ExtQuery → ExtResult) : HandlerOut :=
  match query_db min_max_rows st with
  | (st2, lg, .ok rows) =>
    match rows with
    | [] =>
      ⟨st2, lg ++ [temp_log "list index out of range"], false, .error temperature_abort⟩
    | (start_date, end_date) :: _ =>
      temperature_external_step st2 lg (ext (archive_params start_date end_date))
  | (st2, lg, .error e) =>
    ⟨st2, lg ++ [temp_log (http_exc_str e)], false, .error temperature_abort⟩

/-- The external query the temperature route sends for a given database:
the archive params filled with the MIN/MAX order dates. -/
def temp_query (db : DB) : ExtQuery :=
  archive_params (min_max_order_date db).1 (min_max_order_date db).2

/-- The HTTP routes bound by the Flask app: the page route, the five API
routes, and the fallback for unmatched paths. -/
inductive Route where
  | index
  | api_temperature_over_time
  | api_orders_over_time
  | api_low_stock_levels
  | api_most_popular_products
  | api_payment_method_popularity
  | unmatched
deriving DecidableEq

/-- Whether a route lives under /api/. -/
def Route.isApi : Route → Bool
  | .index => false
  | .unmatched => false
  | _ => true

/-- Body produced by the registered 404 error handler (not_found). -/
def not_found_body : Json := Json.obj [("error", Json.str "Not found")]

/-- Body produced by the registered 500 error handler (internal_error);
it ignores the description carried by the HTTPException. -/
def internal_error_body : Json := Json.obj [("error", Json.str "Internal server error")]

/-- Placeholder for the static dashboard page rendered at `/` (out of
scope; treated as an opaque asset). -/
def dashboard_html : String := "dashboard.html"

/-- A complete HTTP response as seen by the client, together with the
resulting storage state, the log written while handling the request, and
whether the external API was contacted. -/
structure AppResponse where
  stAfter : Except String DB
  log : List String
  extCalled : Bool
  status : Nat
  body : Json

/-- Flask's outer request boundary: a normal return is serialized with
status 200; an escaping HTTPException is dispatched to the registered
error handler for its code, so a 404 yields the Not-found body and a 500
yields the uniform Internal-server-error body whatever its description. -/
def flask_finish (h : HandlerOut) : AppResponse :=
  match h.result with
  | .ok j => ⟨h.stAfter, h.log, h.extCalled, 200, j⟩
  | .error e =>
    ⟨h.stAfter, h.log, h.extCalled, e.code,
      if e.code == 404 then not_found_body else internal_error_body⟩

/-- The application: routes a request to its handler and applies the error
boundary.  `/` renders the static page, unmatched paths hit the 404
handler, and each API route runs its handler against the storage state
and (for the temperature route) the external oracle. -/
def app (r : Route) (st : Except String DB) (ext : ExtQuery → ExtResult) : AppResponse :=
  match r with
  | .index => ⟨st, [], false, 200, Json.str dashboard_html⟩
  | .unmatched => ⟨st, [], false, 404, not_found_body⟩
  | .api_temperature_over_time => flask_finish (temperature_over_time st ext)
  | .api_orders_over_time => flask_finish (orders_over_time st)
  | .api_low_stock_levels => flask_finish (low_stock_levels st)
  | .api_most_popular_products => flask_finish (most_popular_products st)
  | .api_payment_method_popularity => flask_finish (payment_method_popularity st)

/-- Connection lifecycle events of one `query_db` call. -/
inductive ConnEvent where
  | openConn
  | execute
  | fetchall
  | commitTx
  | rollbackTx
  | closeConn
deriving DecidableEq

/-- The connection-event trace of one `query_db` call, by exit path.
`sqlite3.connect` opens the connection; the `with conn` block's `__exit__`
commits the transaction when the body succeeds and rolls it back when a
sqlite3 error is raised during execution — per the documented semantics of
the sqlite3 connection context manager it does not close the connection on
either path (the handle is only reclaimed later by garbage collection). -/
def query_db_conn_events (sqlite_error : Bool) : List ConnEvent :=
  if sqlite_error then
    [ConnEvent.openConn, ConnEvent.execute, ConnEvent.rollbackTx]
  else
    [ConnEvent.openConn, ConnEvent.execute, ConnEvent.fetchall, ConnEvent.commitTx]

/-- The "error" field of a one-field JSON error object, used to state what
message a response body carries to the client. -/
def err_msg_of : Json → Option String
  | .obj [(k, .str v)] => if k = "error" then some v else none
  | _ => none

/-- A database with all six tables empty. -/
def emptyDB : DB := ⟨[], [], [], [], [], []⟩

/-- A database whose orders table holds two orders on 2024-01-01 and one on
2024-01-02 (other tables empty). -/
def ordersDB : DB :=
  ⟨[⟨1, "2024-01-01"⟩, ⟨2, "2024-01-01"⟩, ⟨3, "2024-01-02"⟩], [], [], [], [], []⟩

/-- A database with three payments over two payment methods, satisfying the
schema's key and foreign-key constraints. -/
def paymentsDB : DB :=
  ⟨[], [], [], [], [⟨1, 10⟩, ⟨2, 10⟩, ⟨3, 20⟩], [⟨10, "Credit Card"⟩, ⟨20, "PayPal"⟩]⟩

/-- An external oracle for which every request fails at the transport
level. -/
def extNetFail : ExtQuery → ExtResult := fun _ => ExtResult.netFail "Connection refused"

/-- An external oracle for which every request succeeds with a JSON body. -/
def extOkJson : ExtQuery → ExtResult :=
  fun _ => ExtResult.resp 200 (some (Json.obj [("daily", Json.arr [])]))

/-- The BINARY-collation comparison is total. -/
theorem charListLe_total : ∀ (as bs : List Char),
    charListLe as bs = true ∨ charListLe bs as = true := by
  intro as
  induction as with
  | nil => intro bs; exact Or.inl rfl
  | cons a as ih =>
    intro bs
    cases bs with
    | nil => exact Or.inr rfl
    | cons b bs =>
      rcases lt_trichotomy a b with h | h | h
      · left; simp [charListLe, h]
      · subst h
        rcases ih bs with hl | hr
        · left; simp [charListLe, lt_irrefl, hl]
        · right; simp [charListLe, lt_irrefl, hr]
      · right; simp [charListLe, h]

/-- The BINARY-collation comparison is transitive. -/
theorem charListLe_trans : ∀ (as bs cs : List Char),
    charListLe as bs = true → charListLe bs cs = true → charListLe as cs = true := by
  intro as
  induction as with
  | nil => intro bs cs h1 h2; rfl
  | cons a as ih =>
    intro bs cs h1 h2
    cases bs with
    | nil => simp [charListLe] at h1
    | cons b bs =>
      cases cs with
      | nil => simp [charListLe] at h2
      | cons c cs =>
        rcases lt_trichotomy a b with hab | hab | hab
        · rcases lt_trichotomy b c with hbc | hbc | hbc
          · simp [charListLe, lt_trans hab hbc]
          · subst hbc; simp [charListLe, hab]
          · simp [charListLe, asymm hbc, hbc] at h2
        · subst hab
          simp only [charListLe, lt_irrefl, if_false] at h1
          rcases lt_trichotomy a c with hac | hac | hac
          · simp [charListLe, hac]
          · subst hac
            simp only [charListLe, lt_irrefl, if_false] at h2 ⊢
            exact ih bs cs h1 h2
          · simp [charListLe, asymm hac, hac] at h2
        · simp [charListLe, asymm hab, hab] at h1

/-- The BINARY-collation comparison is antisymmetric. -/
theorem charListLe_antisymm : ∀ (as bs : List Char),
    charListLe as bs = true → charListLe bs as = true → as = bs := by
  intro as
  induction as with
  | nil =>
    intro bs h1 h2
    cases bs with
    | nil => rfl
    | cons b bs => simp [charListLe] at h2
  | cons a as ih =>
    intro bs h1 h2
    cases bs with
    | nil => simp [charListLe] at h1
    | cons b bs =>
      rcases lt_trichotomy a b with hab | hab | hab
      · simp [charListLe, asymm hab, hab] at h2
      · subst hab
        simp only [charListLe, lt_irrefl, if_false] at h1 h2
        rw [ih bs h1 h2]
      · simp [charListLe, asymm hab, hab] at h1

/-- A list below another in the BINARY-collation order is not
lexicographically greater. -/
theorem not_lex_of_charListLe : ∀ (as bs : List Char),
    charListLe as bs = true → ¬ List.Lex (· < ·) bs as := by
  intro as
  induction as with
  | nil => intro bs h hlex; exact List.Lex.not_nil_right _ _ hlex
  | cons a as ih =>
    intro bs h hlex
    cases bs with
    | nil => simp [charListLe] at h
    | cons b bs =>
      cases hlex with
      | cons htail =>
        simp only [charListLe, lt_irrefl, if_false] at h
        exact ih bs h htail
      | rel hba => simp [charListLe, asymm hba, hba] at h

/-- strOrd is total. -/
theorem strOrd_total (a b : String) : strOrd a b ∨ strOrd b a :=
  charListLe_total a.data b.data

/-- strOrd is transitive. -/
theorem strOrd_trans (a b c : String) : strOrd a b → strOrd b c → strOrd a c :=
  charListLe_trans a.data b.data c.data

/-- strOrd is antisymmetric. -/
theorem strOrd_antisymm (a b : String) : strOrd a b → strOrd b a → a = b :=
  fun h1 h2 => String.ext (charListLe_antisymm a.data b.data h1 h2)

/-- strOrd agrees with the ambient linear order on strings, so a strOrd-
sorted list is sorted ascending in the usual sense. -/
theorem strOrd_le {a b : String} (h : strOrd a b) : a ≤ b := by
  rw [String.le_iff_toList_le]
  exact le_of_not_lt (fun hlt => not_lex_of_charListLe a.data b.data h hlt)

/-- The error boundary does not touch the storage state. -/
theorem flask_finish_stAfter (h : HandlerOut) : (flask_finish h).stAfter = h.stAfter := by
  rcases h with ⟨st, lg, ec, r⟩
  rcases r with j | e <;> rfl

/-- The error boundary does not touch the external-call flag. -/
theorem flask_finish_extCalled (h : HandlerOut) : (flask_finish h).extCalled = h.extCalled := by
  rcases h with ⟨st, lg, ec, r⟩
  rcases r with j | e <;> rfl

/-- Whatever the external call returned, the step after `requests.get`
keeps the storage state. -/
theorem temperature_external_step_stAfter (st2 : Except String DB) (lg : List String)
    (r : ExtResult) : (temperature_external_step st2 lg r).stAfter = st2 := by
  rcases r with m | ⟨s, b⟩
  · rfl
  · simp only [temperature_external_step]
    by_cases hs : raise_for_status_fails s = true
    · simp [hs]
    · rcases b with _ | j <;> simp [hs]

/-- Whatever the external call returned, the step after `requests.get`
records that the external API was contacted. -/
theorem temperature_external_step_extCalled (st2 : Except String DB) (lg : List String)
    (r : ExtResult) : (temperature_external_step st2 lg r).extCalled = true := by
  rcases r with m | ⟨s, b⟩
  · rfl
  · simp only [temperature_external_step]
    by_cases hs : raise_for_status_fails s = true
    · simp [hs]
    · rcases b with _ | j <;> simp [hs]

/-- On a working store, the temperature handler is the external step fed
with the oracle's answer to the MIN/MAX-date query. -/
theorem temperature_over_time_ok (db : DB) (ext : ExtQuery → ExtResult) :
    temperature_over_time (.ok db) ext =
      temperature_external_step (.ok db) [] (ext (temp_query db)) := rfl

/-- Mapping the constant 1 and summing counts the list. -/
theorem sum_map_one {α : Type} (l : List α) : (l.map (fun _ => (1 : Nat))).sum = l.length := by
  induction l with
  | nil => rfl
  | cons a t ih => simp [ih, Nat.add_comm]

/-- In a list of payment-method rows with pairwise distinct method_ids, the
filter by one existing method_id keeps exactly one row. -/
theorem filter_method_id_length_one (l : List PaymentMethodRow) (k : Nat)
    (hn : (l.map (fun m => m.method_id)).Nodup)
    (hk : ∃ m ∈ l, m.method_id = k) :
    (l.filter (fun m => m.method_id == k)).length = 1 := by
  induction l with
  | nil => rcases hk with ⟨m, hm, _⟩; cases hm
  | cons m0 t ih =>
    rw [List.map_cons, List.nodup_cons] at hn
    by_cases h0 : m0.method_id = k
    · rw [List.filter_cons, if_pos (by simp [h0])]
      have ht : t.filter (fun m => m.method_id == k) = [] := by
        rw [List.filter_eq_nil_iff]
        intro m hm
        simp only [beq_iff_eq]
        intro hmk
        exact hn.1 (by
          have : m.method_id ∈ t.map (fun m => m.method_id) :=
            List.mem_map_of_mem _ hm
          rwa [hmk, ← h0] at this)
      rw [ht]
      rfl
    · rw [List.filter_cons, if_neg (by simp [h0])]
      refine ih hn.2 ?_
      rcases hk with ⟨m, hm, hmk⟩
      rcases List.mem_cons.mp hm with hm0 | hmt
      · exact absurd (hm0 ▸ hmk) h0
      · exact ⟨m, hmt, hmk⟩

/-- Claim C2: for every route under /api/ and every storage state in which
the storage layer raises an error, the response has status 500 with the
uniform Internal-server-error JSON body, and the underlying error is
written to the log before the response is produced (it is the first log
entry of the request). -/
theorem api_storage_error_uniform_500 (r : Route) (h : r.isApi = true)
    (e : String) (ext : ExtQuery → ExtResult) :
    (app r (.error e) ext).status = 500 ∧
    (app r (.error e) ext).body = internal_error_body ∧
    db_error_log e ∈ (app r (.error e) ext).log := by
  cases r with
  | index => exact absurd h (by decide)
  | unmatched => exact absurd h (by decide)
  | api_temperature_over_time => exact ⟨rfl, rfl, List.mem_cons_self _ _⟩
  | api_orders_over_time => exact ⟨rfl, rfl, List.mem_cons_self _ _⟩
  | api_low_stock_levels => exact ⟨rfl, rfl, List.mem_cons_self _ _⟩
  | api_most_popular_products => exact ⟨rfl, rfl, List.mem_cons_self _ _⟩
  | api_payment_method_popularity => exact ⟨rfl, rfl, List.mem_cons_self _ _⟩

/-- Witness for C2 at a concrete API route, error message and oracle. -/
theorem api_storage_error_uniform_500_witness :
    Route.isApi Route.api_orders_over_time = true ∧
    ((app Route.api_orders_over_time (.error "unable to open database file") extNetFail).status = 500 ∧
     (app Route.api_orders_over_time (.error "unable to open database file") extNetFail).body = internal_error_body ∧
     db_error_log "unable to open database file" ∈
       (app Route.api_orders_over_time (.error "unable to open database file") extNetFail).log) :=
  ⟨rfl, api_storage_error_uniform_500 Route.api_orders_over_time rfl
    "unable to open database file" extNetFail⟩

/-- Claim C4, counterexample: on neither exit path of query_db (success,
sqlite error) does the connection trace contain a close event — the `with
sqlite3.connect(...)` block ends the transaction but never closes the
connection it opened, so the claimed guaranteed close is false already on
the success path. -/
theorem query_db_never_closes_connection :
    ConnEvent.closeConn ∉ query_db_conn_events false ∧
    ConnEvent.closeConn ∉ query_db_conn_events true := by
  decide

/-- Claim C4, amended: on every exit path of query_db the connection that
was opened has its transaction ended before the call returns or propagates
the failure (commit on success, rollback on a sqlite error), but the
connection itself is never explicitly closed; it is left to garbage
collection. -/
theorem query_db_transaction_scoped_no_close (sqlite_error : Bool) :
    (query_db_conn_events sqlite_error).head? = some ConnEvent.openConn ∧
    (query_db_conn_events sqlite_error).getLast? =
      some (if sqlite_error then ConnEvent.rollbackTx else ConnEvent.commitTx) ∧
    ConnEvent.closeConn ∉ query_db_conn_events sqlite_error := by
  cases sqlite_error <;> exact ⟨by decide, by decide, by decide⟩

/-- Claim C9: no request mutates the database — for every route, storage
state and external oracle, the storage state after the request equals the
state before it (every statement the app runs is a SELECT). -/
theorem routes_leave_database_unchanged (r : Route) (st : Except String DB)
    (ext : ExtQuery → ExtResult) : (app r st ext).stAfter = st := by
  cases r with
  | index => rfl
  | unmatched => rfl
  | api_temperature_over_time =>
    show (flask_finish (temperature_over_time st ext)).stAfter = st
    rw [flask_finish_stAfter]
    cases st with
    | error e => rfl
    | ok db => rw [temperature_over_time_ok, temperature_external_step_stAfter]
  | api_orders_over_time =>
    show (flask_finish (orders_over_time st)).stAfter = st
    rw [flask_finish_stAfter]
    cases st with
    | error e => rfl
    | ok db => rfl
  | api_low_stock_levels =>
    show (flask_finish (low_stock_levels st)).stAfter = st
    rw [flask_finish_stAfter]
    cases st with
    | error e => rfl
    | ok db => rfl
  | api_most_popular_products =>
    show (flask_finish (most_popular_products st)).stAfter = st
    rw [flask_finish_stAfter]
    cases st with
    | error e => rfl
    | ok db => rfl
  | api_payment_method_popularity =>
    show (flask_finish (payment_method_popularity st)).stAfter = st
    rw [flask_finish_stAfter]
    cases st with
    | error e => rfl
    | ok db => rfl

/-- Claim C10: for every database state, each SQL-only route's response
arrays are per-column projections of one row list, so within each route all
arrays have the same length. -/
theorem api_arrays_index_aligned (db : DB) :
    (orders_dates db).length = (orders_counts db).length ∧
    (stock_products db).length = (stock_quantities db).length ∧
    (popular_product_ids db).length = (popular_product_names db).length ∧
    (popular_product_names db).length = (popular_totals db).length ∧
    (payment_methods_list db).length = (payment_counts db).length := by
  refine ⟨?_, ?_, ?_, ?_, ?_⟩ <;>
    simp [orders_dates, orders_counts, stock_products, stock_quantities,
      popular_product_ids, popular_product_names, popular_totals,
      payment_methods_list, payment_counts]

/-- Claim C8: for each of the four SQL-only routes, when the underlying
query returns zero rows the handler succeeds with status 200 and returns a
JSON object whose arrays are all empty. -/
theorem empty_queries_give_empty_arrays (db : DB) (ext : ExtQuery → ExtResult) :
    (orders_over_time_rows db = [] →
      (app .api_orders_over_time (.ok db) ext).status = 200 ∧
      (app .api_orders_over_time (.ok db) ext).body =
        Json.obj [("dates", Json.arr []), ("counts", Json.arr [])]) ∧
    (low_stock_levels_rows db = [] →
      (app .api_low_stock_levels (.ok db) ext).status = 200 ∧
      (app .api_low_stock_levels (.ok db) ext).body =
        Json.obj [("products", Json.arr []), ("quantities", Json.arr [])]) ∧
    (most_popular_products_rows db = [] →
      (app .api_most_popular_products (.ok db) ext).status = 200 ∧
      (app .api_most_popular_products (.ok db) ext).body =
        Json.obj [("product_ids", Json.arr []), ("product_names", Json.arr []),
                  ("totals", Json.arr [])]) ∧
    (payment_method_popularity_rows db = [] →
      (app .api_payment_method_popularity (.ok db) ext).status = 200 ∧
      (app .api_payment_method_popularity (.ok db) ext).body =
        Json.obj [("methods", Json.arr []), ("counts", Json.arr [])]) := by
  refine ⟨fun h => ⟨rfl, ?_⟩, fun h => ⟨rfl, ?_⟩, fun h => ⟨rfl, ?_⟩, fun h => ⟨rfl, ?_⟩⟩
  · have hb : (app .api_orders_over_time (.ok db) ext).body =
        Json.obj
          [("dates", Json.arr (((orders_over_time_rows db).map (fun r => r.1)).map Json.str)),
           ("counts", Json.arr (((orders_over_time_rows db).map (fun r => r.2)).map
             (fun n => Json.num (Int.ofNat n))))] := rfl
    rw [hb, h]
    rfl
  · have hb : (app .api_low_stock_levels (.ok db) ext).body =
        Json.obj
          [("products", Json.arr (((low_stock_levels_rows db).map (fun r => r.1)).map Json.str)),
           ("quantities", Json.arr (((low_stock_levels_rows db).map (fun r => r.2)).map
             Json.num))] := rfl
    rw [hb, h]
    rfl
  · have hb : (app .api_most_popular_products (.ok db) ext).body =
        Json.obj
          [("product_ids", Json.arr (((most_popular_products_rows db).map (fun r => r.1)).map
             (fun n => Json.num (Int.ofNat n)))),
           ("product_names", Json.arr (((most_popular_products_rows db).map
             (fun r => r.2.1)).map Json.str)),
           ("totals", Json.arr (((most_popular_products_rows db).map (fun r => r.2.2)).map
             Json.num))] := rfl
    rw [hb, h]
    rfl
  · have hb : (app .api_payment_method_popularity (.ok db) ext).body =
        Json.obj
          [("methods", Json.arr (((payment_method_popularity_rows db).map (fun r => r.1)).map
             Json.str)),
           ("counts", Json.arr (((payment_method_popularity_rows db).map (fun r => r.2)).map
             (fun n => Json.num (Int.ofNat n))))] := rfl
    rw [hb, h]
    rfl

/-- Witness for C8 at the empty database, where all four queries return
zero rows. -/
theorem empty_queries_give_empty_arrays_witness :
    ((app .api_orders_over_time (.ok emptyDB) extNetFail).status = 200 ∧
      (app .api_orders_over_time (.ok emptyDB) extNetFail).body =
        Json.obj [("dates", Json.arr []), ("counts", Json.arr [])]) ∧
    ((app .api_low_stock_levels (.ok emptyDB) extNetFail).status = 200 ∧
      (app .api_low_stock_levels (.ok emptyDB) extNetFail).body =
        Json.obj [("products", Json.arr []), ("quantities", Json.arr [])]) ∧
    ((app .api_most_popular_products (.ok emptyDB) extNetFail).status = 200 ∧
      (app .api_most_popular_products (.ok emptyDB) extNetFail).body =
        Json.obj [("product_ids", Json.arr []), ("product_names", Json.arr []),
                  ("totals", Json.arr [])]) ∧
    ((app .api_payment_method_popularity (.ok emptyDB) extNetFail).status = 200 ∧
      (app .api_payment_method_popularity (.ok emptyDB) extNetFail).body =
        Json.obj [("methods", Json.arr []), ("counts", Json.arr [])]) :=
  ⟨(empty_queries_give_empty_arrays emptyDB extNetFail).1 rfl,
   (empty_queries_give_empty_arrays emptyDB extNetFail).2.1 rfl,
   (empty_queries_give_empty_arrays emptyDB extNetFail).2.2.1 rfl,
   (empty_queries_give_empty_arrays emptyDB extNetFail).2.2.2 rfl⟩

/-- Claim C1, counterexample: with the orders table empty and an external
oracle that answers 200 with a JSON body, the handler DOES issue the
external request (extCalled is true) and returns 200, not 500 — `requests`
simply drops the None-valued start/end dates, so nothing prevents the
call.  This refutes the claim that the route returns 500 without
contacting the external API. -/
theorem temperature_empty_orders_issues_request :
    (app .api_temperature_over_time (.ok emptyDB) extOkJson).extCalled = true ∧
    (app .api_temperature_over_time (.ok emptyDB) extOkJson).status = 200 :=
  ⟨rfl, rfl⟩

/-- Claim C1, amended: if the orders table is empty, MIN and MAX are NULL,
the handler still issues the external request with both date parameters
null, and the response is then dictated by the external outcome — 500 with
the uniform body when the call fails, a passthrough otherwise. -/
theorem temperature_empty_orders_behavior (db : DB) (ext : ExtQuery → ExtResult)
    (h : db.orders = []) :
    min_max_order_date db = (none, none) ∧
    (temp_query db).start_date = none ∧
    (temp_query db).end_date = none ∧
    (app .api_temperature_over_time (.ok db) ext).extCalled = true ∧
    (∀ m, ext (temp_query db) = ExtResult.netFail m →
      (app .api_temperature_over_time (.ok db) ext).status = 500 ∧
      (app .api_temperature_over_time (.ok db) ext).body = internal_error_body) := by
  have hmm : min_max_order_date db = (none, none) := by
    simp [min_max_order_date, order_dates_col, h, sql_min, sql_max]
  refine ⟨hmm, ?_, ?_, ?_, ?_⟩
  · simp [temp_query, archive_params, hmm]
  · simp [temp_query, archive_params, hmm]
  · show (flask_finish (temperature_over_time (.ok db) ext)).extCalled = true
    rw [flask_finish_extCalled, temperature_over_time_ok, temperature_external_step_extCalled]
  · intro m hm
    have happ : app .api_temperature_over_time (.ok db) ext =
        flask_finish (temperature_external_step (.ok db) [] (ext (temp_query db))) := rfl
    rw [happ, hm]
    exact ⟨rfl, rfl⟩

/-- Witness for C1 (amended) at the empty database and a failing oracle. -/
theorem temperature_empty_orders_behavior_witness :
    emptyDB.orders = [] ∧
    extNetFail (temp_query emptyDB) = ExtResult.netFail "Connection refused" ∧
    ((app .api_temperature_over_time (.ok emptyDB) extNetFail).extCalled = true ∧
     (app .api_temperature_over_time (.ok emptyDB) extNetFail).status = 500 ∧
     (app .api_temperature_over_time (.ok emptyDB) extNetFail).body = internal_error_body) :=
  ⟨rfl, rfl,
   (temperature_empty_orders_behavior emptyDB extNetFail rfl).2.2.2.1,
   ((temperature_empty_orders_behavior emptyDB extNetFail rfl).2.2.2.2 "Connection refused" rfl).1,
   ((temperature_empty_orders_behavior emptyDB extNetFail rfl).2.2.2.2 "Connection refused" rfl).2⟩

/-- Claim C3, counterexample: when the external call fails, the body the
client receives is the uniform Internal-server-error object — the message
"Error fetching temperature data." only travels inside the HTTPException's
description and is replaced by the registered 500 handler, so the claimed
distinct client-visible message is false. -/
theorem temperature_failure_client_message_uniform :
    (app .api_temperature_over_time (.ok ordersDB) extNetFail).status = 500 ∧
    err_msg_of (app .api_temperature_over_time (.ok ordersDB) extNetFail).body =
      some "Internal server error" ∧
    some "Internal server error" ≠ some "Error fetching temperature data." :=
  ⟨rfl, rfl, by decide⟩

/-- Claim C3, amended: every failure of the external call — transport
failure, HTTP status in [400, 600) (the codes raise_for_status raises
for), or a body that is not valid JSON — is logged and aborts with the
HTTPException `500, "Error fetching temperature data."`; the response the
client then receives is 500 with the uniform Internal-server-error body,
the description being internal only. -/
theorem temperature_external_failure_500 (db : DB) (ext : ExtQuery → ExtResult) :
    temperature_abort = HttpExc.mk 500 "Error fetching temperature data." ∧
    (∀ m, ext (temp_query db) = ExtResult.netFail m →
      (temperature_over_time (.ok db) ext).result = Except.error temperature_abort ∧
      (app .api_temperature_over_time (.ok db) ext).status = 500 ∧
      (app .api_temperature_over_time (.ok db) ext).body = internal_error_body ∧
      temp_log m ∈ (app .api_temperature_over_time (.ok db) ext).log) ∧
    (∀ s b, ext (temp_query db) = ExtResult.resp s b → raise_for_status_fails s = true →
      (temperature_over_time (.ok db) ext).result = Except.error temperature_abort ∧
      (app .api_temperature_over_time (.ok db) ext).status = 500 ∧
      (app .api_temperature_over_time (.ok db) ext).body = internal_error_body ∧
      temp_log (toString s ++ " error for url") ∈
        (app .api_temperature_over_time (.ok db) ext).log) ∧
    (∀ s, ext (temp_query db) = ExtResult.resp s none → raise_for_status_fails s = false →
      (temperature_over_time (.ok db) ext).result = Except.error temperature_abort ∧
      (app .api_temperature_over_time (.ok db) ext).status = 500 ∧
      (app .api_temperature_over_time (.ok db) ext).body = internal_error_body ∧
      temp_log "response body is not valid JSON" ∈
        (app .api_temperature_over_time (.ok db) ext).log) := by
  have happ : app .api_temperature_over_time (.ok db) ext =
      flask_finish (temperature_external_step (.ok db) [] (ext (temp_query db))) := rfl
  refine ⟨rfl, ?_, ?_, ?_⟩
  · intro m hm
    refine ⟨?_, ?_, ?_, ?_⟩
    · rw [temperature_over_time_ok, hm]
      rfl
    · rw [happ, hm]
      rfl
    · rw [happ, hm]
      rfl
    · rw [happ, hm]
      exact List.mem_cons_self _ _
  · intro s b hb hs
    refine ⟨?_, ?_, ?_, ?_⟩
    · rw [temperature_over_time_ok, hb]
      simp [temperature_external_step, hs]
    · rw [happ, hb]
      simp [temperature_external_step, hs, flask_finish, temperature_abort]
    · rw [happ, hb]
      simp [temperature_external_step, hs, flask_finish, temperature_abort]
    · rw [happ, hb]
      simp [temperature_external_step, hs, flask_finish]
  · intro s hb hs
    refine ⟨?_, ?_, ?_, ?_⟩
    · rw [temperature_over_time_ok, hb]
      simp [temperature_external_step, hs]
    · rw [happ, hb]
      simp [temperature_external_step, hs, flask_finish, temperature_abort]
    · rw [happ, hb]
      simp [temperature_external_step, hs, flask_finish, temperature_abort]
    · rw [happ, hb]
      simp [temperature_external_step, hs, flask_finish]

/-- Witness for C3 (amended) at the empty database and a transport-failing
oracle. -/
theorem temperature_external_failure_500_witness :
    extNetFail (temp_query emptyDB) = ExtResult.netFail "Connection refused" ∧
    ((temperature_over_time (.ok emptyDB) extNetFail).result = Except.error temperature_abort ∧
     (app .api_temperature_over_time (.ok emptyDB) extNetFail).status = 500 ∧
     (app .api_temperature_over_time (.ok emptyDB) extNetFail).body = internal_error_body ∧
     temp_log "Connection refused" ∈
       (app .api_temperature_over_time (.ok emptyDB) extNetFail).log) :=
  ⟨rfl, (temperature_external_failure_500 emptyDB extNetFail).2.1 "Connection refused" rfl⟩

/-- Claim C5: for every database state, /api/most_popular_products returns
the three per-column arrays of its row list, each with at most 10 entries
(LIMIT 10) even when more distinct products exist, and the totals array is
sorted in descending order of summed quantity_ordered. -/
theorem most_popular_limit_ten_sorted (db : DB) (ext : ExtQuery → ExtResult) :
    (app .api_most_popular_products (.ok db) ext).body =
      Json.obj
        [("product_ids", Json.arr ((popular_product_ids db).map (fun n => Json.num (Int.ofNat n)))),
         ("product_names", Json.arr ((popular_product_names db).map Json.str)),
         ("totals", Json.arr ((popular_totals db).map Json.num))] ∧
    (popular_product_ids db).length ≤ 10 ∧
    (popular_product_names db).length ≤ 10 ∧
    (popular_totals db).length ≤ 10 ∧
    List.Sorted (fun x y : Int => x ≥ y) (popular_totals db) := by
  haveI : IsTotal (Nat × String × Int) totalDesc := ⟨fun a b => le_total b.2.2 a.2.2⟩
  haveI : IsTrans (Nat × String × Int) totalDesc := ⟨fun a b c hab hbc => le_trans hbc hab⟩
  have hs : List.Pairwise totalDesc (List.insertionSort totalDesc (most_popular_groups db)) :=
    List.sorted_insertionSort totalDesc _
  have hs2 : List.Pairwise totalDesc (most_popular_products_rows db) :=
    List.Pairwise.sublist (List.take_sublist 10 _) hs
  refine ⟨rfl, ?_, ?_, ?_, ?_⟩
  · simp only [popular_product_ids, List.length_map, most_popular_products_rows]
    exact List.length_take_le _ _
  · simp only [popular_product_names, List.length_map, most_popular_products_rows]
    exact List.length_take_le _ _
  · simp only [popular_totals, List.length_map, most_popular_products_rows]
    exact List.length_take_le _ _
  · show List.Pairwise (fun x y : Int => x ≥ y)
      (List.map (fun r => r.2.2) (most_popular_products_rows db))
    rw [List.pairwise_map]
    exact hs2.imp (fun h => h)

/-- Claim C6: with the schema's constraints on payment_methods (method_id
is a unique key and every payments row references an existing method), the
counts returned by /api/payment_method_popularity sum to the number of
rows of the payments table: each payment joins exactly one method row, and
grouping partitions the join. -/
theorem payment_counts_sum_eq_payments_length (db : DB)
    (hfk : ∀ p ∈ db.payments, ∃ m ∈ db.payment_methods, m.method_id = p.method_id)
    (hn : (db.payment_methods.map (fun m => m.method_id)).Nodup) :
    (payment_counts db).sum = db.payments.length := by
  have hperm : (payment_counts db).Perm ((payment_groups db).map (fun r => r.2)) :=
    List.Perm.map _ (List.perm_insertionSort countDesc (payment_groups db))
  have h1 : (payment_counts db).sum = ((payment_groups db).map (fun r => r.2)).sum :=
    hperm.sum_eq
  have h2 : ((payment_groups db).map (fun r => r.2)) =
      ((payment_join_names db).dedup.map (fun n => (payment_join_names db).count n)) := by
    simp only [payment_groups, List.map_map]
    rfl
  have h3 : ((payment_join_names db).dedup.map
      (fun n => (payment_join_names db).count n)).sum = (payment_join_names db).length :=
    List.sum_map_count_dedup_eq_length (payment_join_names db)
  have h4 : (payment_join_names db).length = db.payments.length := by
    unfold payment_join_names
    rw [List.length_flatMap]
    have hcong : ∀ p ∈ db.payments,
        (List.length ∘ fun p : PaymentRow =>
          (db.payment_methods.filter (fun m => m.method_id == p.method_id)).map
            (fun m => m.method_name)) p = (fun _ : PaymentRow => (1 : Nat)) p := by
      intro p hp
      simp only [Function.comp, List.length_map]
      exact filter_method_id_length_one db.payment_methods p.method_id hn (hfk p hp)
    rw [List.map_congr_left hcong, sum_map_one]
  rw [h1, h2, h3, h4]

/-- Witness for C6 at a database with three payments over two methods,
satisfying the key and foreign-key hypotheses. -/
theorem payment_counts_sum_eq_payments_length_witness :
    (∀ p ∈ paymentsDB.payments, ∃ m ∈ paymentsDB.payment_methods,
      m.method_id = p.method_id) ∧
    (paymentsDB.payment_methods.map (fun m => m.method_id)).Nodup ∧
    (payment_counts paymentsDB).sum = paymentsDB.payments.length :=
  ⟨by decide, by decide,
   payment_counts_sum_eq_payments_length paymentsDB (by decide) (by decide)⟩

/-- Claim C7: if the orders table holds exactly two orders dated 2024-01-01
and one dated 2024-01-02, /api/orders_over_time returns dates
[2024-01-01, 2024-01-02] with counts [2, 1]; and for every database state
the dates array is sorted ascending, the two arrays have equal length, and
the count at each index is the number of orders bearing the date at that
index. -/
theorem orders_over_time_grouping_correct (db : DB) (ext : ExtQuery → ExtResult) :
    ((order_dates_col db).Perm ["2024-01-01", "2024-01-01", "2024-01-02"] →
      (app .api_orders_over_time (.ok db) ext).status = 200 ∧
      (app .api_orders_over_time (.ok db) ext).body =
        Json.obj
          [("dates", Json.arr [Json.str "2024-01-01", Json.str "2024-01-02"]),
           ("counts", Json.arr [Json.num 2, Json.num 1])]) ∧
    List.Sorted (fun a b : String => a ≤ b) (orders_dates db) ∧
    (orders_dates db).length = (orders_counts db).length ∧
    (∀ (i : Nat) (d : String) (c : Nat),
      (orders_dates db)[i]? = some d → (orders_counts db)[i]? = some c →
      c = db.orders.countP (fun o => o.order_date == d)) := by
  haveI : IsTotal String strOrd := ⟨strOrd_total⟩
  haveI : IsTrans String strOrd := ⟨strOrd_trans⟩
  haveI : IsAntisymm String strOrd := ⟨strOrd_antisymm⟩
  have hdates : orders_dates db = List.insertionSort strOrd (order_dates_col db).dedup := by
    simp only [orders_dates, orders_over_time_rows, List.map_map]
    exact List.map_id' _
  have hcounts : orders_counts db =
      (List.insertionSort strOrd (order_dates_col db).dedup).map
        (fun d => (order_dates_col db).count d) := by
    simp only [orders_counts, orders_over_time_rows, List.map_map]
    rfl
  have hsorted : List.Sorted strOrd (List.insertionSort strOrd (order_dates_col db).dedup) :=
    List.sorted_insertionSort strOrd _
  refine ⟨?_, ?_, ?_, ?_⟩
  · intro hperm
    have hdd : (order_dates_col db).dedup.Perm
        (["2024-01-01", "2024-01-01", "2024-01-02"] : List String).dedup := hperm.dedup
    have htcomp : (["2024-01-01", "2024-01-01", "2024-01-02"] : List String).dedup =
        ["2024-01-01", "2024-01-02"] := by decide
    rw [htcomp] at hdd
    have hp2 : (List.insertionSort strOrd (order_dates_col db).dedup).Perm
        ["2024-01-01", "2024-01-02"] :=
      (List.perm_insertionSort strOrd _).trans hdd
    have hs2 : List.Sorted strOrd ["2024-01-01", "2024-01-02"] := by decide
    have heq : List.insertionSort strOrd (order_dates_col db).dedup =
        ["2024-01-01", "2024-01-02"] :=
      List.eq_of_perm_of_sorted hp2 hsorted hs2
    have hc1 : (order_dates_col db).count "2024-01-01" = 2 := by
      rw [hperm.count_eq]
      decide
    have hc2 : (order_dates_col db).count "2024-01-02" = 1 := by
      rw [hperm.count_eq]
      decide
    refine ⟨rfl, ?_⟩
    have hb : (app .api_orders_over_time (.ok db) ext).body =
        Json.obj
          [("dates", Json.arr ((orders_dates db).map Json.str)),
           ("counts", Json.arr ((orders_counts db).map (fun n => Json.num (Int.ofNat n))))] := rfl
    rw [hb, hdates, hcounts, heq]
    simp [hc1, hc2]
  · rw [hdates]
    exact hsorted.imp (fun h => strOrd_le h)
  · rw [hdates, hcounts]
    simp
  · intro i d c hd hc
    rw [hcounts] at hc
    rw [hdates] at hd
    rw [List.getElem?_map, hd] at hc
    have hcc : (order_dates_col db).count d = c := by
      simpa using hc
    rw [← hcc, List.count_eq_countP]
    show List.countP (fun x => x == d) (db.orders.map (fun o => o.order_date)) = _
    rw [List.countP_map]
    rfl

/-- Witness for C7 at the concrete three-order table. -/
theorem orders_over_time_grouping_correct_witness :
    (order_dates_col ordersDB).Perm ["2024-01-01", "2024-01-01", "2024-01-02"] ∧
    ((app .api_orders_over_time (.ok ordersDB) extNetFail).status = 200 ∧
      (app .api_orders_over_time (.ok ordersDB) extNetFail).body =
        Json.obj
          [("dates", Json.arr [Json.str "2024-01-01", Json.str "2024-01-02"]),
           ("counts", Json.arr [Json.num 2, Json.num 1])]) ∧
    ((orders_dates ordersDB)[0]? = some "2024-01-01" ∧
      (orders_counts ordersDB)[0]? = some 2 ∧
      2 = ordersDB.orders.countP (fun o => o.order_date == "2024-01-01")) :=
  ⟨by decide,
   (orders_over_time_grouping_correct ordersDB extNetFail).1 (by decide),
   by decide, by decide,
   (orders_over_time_grouping_correct ordersDB extNetFail).2.2.2 0 "2024-01-01" 2
     (by decide) (by decide)⟩
